import Mathlib

/-!
Verification of the IV fluid & electrolyte plan calculator
(`src/iv_fluid_app.py`).  The calculation pipeline of the app is embedded
shallowly: Python floats become rationals, the string-based fluid
selection keeps the source's substring tests, and the "Generate Plan"
block becomes the pure function `generatePlan`.
-/

/-- Patient gender, as the app's selectbox offers it. -/
inductive Gender where
  | Male : Gender
  | Female : Gender
deriving DecidableEq

/-- `estimate_tbw` from the source: base fraction 0.6 for Male else 0.5,
times weight, then ×0.85 if obese, then ×1.10 if malnourished. -/
def estimate_tbw (weight : ℚ) (gender : Gender) (obese malnourished : Bool) : ℚ :=
  let base_fraction : ℚ := if gender = Gender.Male then 6/10 else 5/10
  let tbw := base_fraction * weight
  let tbw := if obese then tbw * (85/100) else tbw
  if malnourished then tbw * (110/100) else tbw

/-- `calculate_maintenance` from the source: the 4-2-1 rule, returning
the hourly rate and the 24h volume. -/
def calculate_maintenance (weight : ℚ) : ℚ × ℚ :=
  let m1 := min weight 10 * 4
  let m2 := min (max (weight - 10) 0) 10 * 2
  let m3 := max (weight - 20) 0 * 1
  let rate_h := m1 + m2 + m3
  (rate_h, rate_h * 24)

/-- `calculate_deficit` from the source: maintenance rate × NPO hours. -/
def calculate_deficit (rate_h npo_hours : ℚ) : ℚ :=
  rate_h * npo_hours

/-- `calculate_electrolyte_deficits` from the source.  The Python body
reads the global `weight`, which at call time is the patient weight used
for the maintenance calculation; here it is an explicit argument. -/
def calculate_electrolyte_deficits (tbw weight na k hco3 : ℚ) : ℚ × ℚ × ℚ :=
  let na_def := max 0 (tbw * (140 - na))
  let k_def := max 0 (4/10 * weight * (4 - k))
  let hco3_def := max 0 (3/10 * weight * (24 - hco3))
  (na_def, k_def, hco3_def)

/-- Python's substring test `pat in s` on strings. -/
def strContains (s pat : String) : Bool :=
  (List.range (s.data.length + 1)).any fun i => List.isPrefixOf pat.data (s.data.drop i)

/-- The sidebar inputs consumed by the "Generate Plan" block. -/
structure PatientInput where
  age : ℤ
  gender : Gender
  weight : ℚ
  obese : Bool
  malnourished : Bool
  npoHours : ℚ
  serumNa : ℚ
  serumK : ℚ
  serumHco3 : ℚ
  bloodGlucose : ℚ
  chf : Bool
  pediatric : Bool
  insulinInfusion : Bool
  longNpo : Bool
deriving DecidableEq

/-- The quantities the "Generate Plan" block computes and displays. -/
structure FluidPlan where
  tbw : ℚ
  rate_h : ℚ
  maint_24 : ℚ
  deficit : ℚ
  total_24 : ℚ
  na_def : ℚ
  k_def : ℚ
  hco3_def : ℚ
  fluid : String
  k_supplement : String
deriving DecidableEq

/-- The "Generate Plan" calculation block of the source (lines 77-104),
as a pure function of the sidebar inputs. -/
def generatePlan (p : PatientInput) : FluidPlan :=
  let tbw := estimate_tbw p.weight p.gender p.obese p.malnourished
  let rate_h0 := (calculate_maintenance p.weight).1
  let maint_24_0 := (calculate_maintenance p.weight).2
  let rate_h := if p.chf then rate_h0 * (1/2) else rate_h0
  let maint_24 := if p.chf then rate_h * 24 else maint_24_0
  let deficit := calculate_deficit rate_h p.npoHours
  let total_24 := maint_24 + deficit
  let defs := calculate_electrolyte_deficits tbw p.weight p.serumNa p.serumK p.serumHco3
  let na_def := defs.1
  let k_def := defs.2.1
  let hco3_def := defs.2.2
  let fluid :=
    if p.pediatric then
      if p.longNpo then "D5LR" else "D5NS"
    else
      let base := if p.serumNa < 130 ∨ 0 < deficit then "0.9% NaCl" else "Lactated Ringer\x27s"
      if (p.longNpo || p.insulinInfusion || p.malnourished) && !(strContains base "D5") then
        if strContains base "LR" then "D5LR" else "D5NS"
      else base
  let k_supplement := if p.serumK < 7/2 then "Add KCl 20 mEq per L" else "No extra KCl"
  ⟨tbw, rate_h, maint_24, deficit, total_24, na_def, k_def, hco3_def, fluid, k_supplement⟩

/-! Projection lemmas: each field of `generatePlan p`, read off the
definition. -/

theorem generatePlan_tbw (p : PatientInput) :
    (generatePlan p).tbw = estimate_tbw p.weight p.gender p.obese p.malnourished := rfl

theorem generatePlan_rate_h (p : PatientInput) :
    (generatePlan p).rate_h =
      if p.chf then (calculate_maintenance p.weight).1 * (1/2)
      else (calculate_maintenance p.weight).1 := rfl

theorem generatePlan_maint_24 (p : PatientInput) :
    (generatePlan p).maint_24 =
      if p.chf then (generatePlan p).rate_h * 24
      else (calculate_maintenance p.weight).2 := rfl

theorem generatePlan_deficit (p : PatientInput) :
    (generatePlan p).deficit = (generatePlan p).rate_h * p.npoHours := rfl

theorem generatePlan_total_24 (p : PatientInput) :
    (generatePlan p).total_24 = (generatePlan p).maint_24 + (generatePlan p).deficit := rfl

theorem generatePlan_na_def (p : PatientInput) :
    (generatePlan p).na_def = max 0 ((generatePlan p).tbw * (140 - p.serumNa)) := rfl

theorem generatePlan_k_def (p : PatientInput) :
    (generatePlan p).k_def = max 0 (4/10 * p.weight * (4 - p.serumK)) := rfl

theorem generatePlan_hco3_def (p : PatientInput) :
    (generatePlan p).hco3_def = max 0 (3/10 * p.weight * (24 - p.serumHco3)) := rfl

theorem generatePlan_fluid (p : PatientInput) :
    (generatePlan p).fluid =
      if p.pediatric then
        if p.longNpo then "D5LR" else "D5NS"
      else
        let base := if p.serumNa < 130 ∨ 0 < (generatePlan p).deficit
          then "0.9% NaCl" else "Lactated Ringer\x27s"
        if (p.longNpo || p.insulinInfusion || p.malnourished) && !(strContains base "D5") then
          if strContains base "LR" then "D5LR" else "D5NS"
        else base := rfl

theorem generatePlan_k_supplement (p : PatientInput) :
    (generatePlan p).k_supplement =
      if p.serumK < 7/2 then "Add KCl 20 mEq per L" else "No extra KCl" := rfl

/-- The 24h component of `calculate_maintenance` is the hourly rate × 24. -/
theorem calculate_maintenance_snd (w : ℚ) :
    (calculate_maintenance w).2 = (calculate_maintenance w).1 * 24 := rfl

/-- The 4-2-1 hourly rate is strictly positive for positive weight. -/
theorem calculate_maintenance_pos (w : ℚ) (h : 0 < w) :
    0 < (calculate_maintenance w).1 := by
  have h1 : 0 < min w 10 * 4 := by
    have : 0 < min w 10 := lt_min h (by norm_num)
    linarith
  have h2 : 0 ≤ min (max (w - 10) 0) 10 * 2 := by
    have : (0:ℚ) ≤ min (max (w - 10) 0) 10 := le_min (le_max_right _ _) (by norm_num)
    linarith
  have h3 : 0 ≤ max (w - 20) 0 * 1 := by
    have := le_max_right (w - 20) (0:ℚ)
    linarith
  simp only [calculate_maintenance]
  linarith

/-- TBW is nonnegative whenever the weight is. -/
theorem estimate_tbw_nonneg (w : ℚ) (g : Gender) (ob mal : Bool) (h : 0 ≤ w) :
    0 ≤ estimate_tbw w g ob mal := by
  cases g <;> cases ob <;> cases mal <;> simp [estimate_tbw] <;> nlinarith

/-- The end-to-end example input of the spec: weight 110 kg, Male,
npoHours 12, Na 130, K 5, HCO3 22, every flag off. -/
def exampleInputC1 : PatientInput :=
  { age := 25, gender := Gender.Male, weight := 110, obese := false,
    malnourished := false, npoHours := 12, serumNa := 130, serumK := 5,
    serumHco3 := 22, bloodGlucose := 100, chf := false, pediatric := false,
    insulinInfusion := false, longNpo := false }

/-- C1: on the end-to-end example input (weight 110, Male, no flags,
npoHours 12, Na 130, K 5, HCO3 22) the pipeline produces TBW 66 L,
rate 150 mL/h, maintenance 3600 mL, deficit 1800 mL, total 5400 mL,
sodium deficit 660 mEq, potassium deficit 0, base deficit 66 mEq,
fluid "0.9% NaCl", and no potassium supplement. -/
theorem generatePlan_example :
    generatePlan exampleInputC1 =
      { tbw := 66, rate_h := 150, maint_24 := 3600, deficit := 1800,
        total_24 := 5400, na_def := 660, k_def := 0, hco3_def := 66,
        fluid := "0.9% NaCl", k_supplement := "No extra KCl" } := by
  norm_num [generatePlan, exampleInputC1, estimate_tbw, calculate_maintenance,
    calculate_deficit, calculate_electrolyte_deficits, FluidPlan.mk.injEq,
    min_def, max_def]

/-- C2: for positive weight the maintenance rate follows the 4-2-1 tiers
(4w up to 10 kg; 40 + 2(w−10) up to 20 kg; 40 + 20 + (w−20) beyond), and
the second return value is the rate × 24. -/
theorem calculate_maintenance_tiers (w : ℚ) (h : 0 < w) :
    (w ≤ 10 → (calculate_maintenance w).1 = 4 * w) ∧
    (10 < w → w ≤ 20 → (calculate_maintenance w).1 = 40 + 2 * (w - 10)) ∧
    (20 < w → (calculate_maintenance w).1 = 40 + 20 + (w - 20)) ∧
    (calculate_maintenance w).2 = (calculate_maintenance w).1 * 24 := by
  refine ⟨?_, ?_, ?_, calculate_maintenance_snd w⟩
  · intro hw
    have h1 : min w 10 = w := min_eq_left hw
    have h2 : max (w - 10) 0 = 0 := max_eq_right (by linarith)
    have h3 : max (w - 20) 0 = 0 := max_eq_right (by linarith)
    simp only [calculate_maintenance, h1, h2, h3]
    norm_num
    ring
  · intro hw1 hw2
    have h1 : min w 10 = 10 := min_eq_right (by linarith)
    have h2 : max (w - 10) 0 = w - 10 := max_eq_left (by linarith)
    have h2b : min (w - 10) 10 = w - 10 := min_eq_left (by linarith)
    have h3 : max (w - 20) 0 = 0 := max_eq_right (by linarith)
    simp only [calculate_maintenance, h1, h2, h2b, h3]
    ring
  · intro hw
    have h1 : min w 10 = 10 := min_eq_right (by linarith)
    have h2 : max (w - 10) 0 = w - 10 := max_eq_left (by linarith)
    have h2b : min (w - 10) 10 = 10 := min_eq_right (by linarith)
    have h3 : max (w - 20) 0 = w - 20 := max_eq_left (by linarith)
    simp only [calculate_maintenance, h1, h2, h2b, h3]
    ring

/-- C2 witness at weight 15. -/
theorem calculate_maintenance_tiers_witness :
    (0:ℚ) < 15 ∧
    (((15:ℚ) ≤ 10 → (calculate_maintenance 15).1 = 4 * 15) ∧
     ((10:ℚ) < 15 → (15:ℚ) ≤ 20 → (calculate_maintenance 15).1 = 40 + 2 * (15 - 10)) ∧
     ((20:ℚ) < 15 → (calculate_maintenance 15).1 = 40 + 20 + (15 - 20)) ∧
     (calculate_maintenance 15).2 = (calculate_maintenance 15).1 * 24) :=
  ⟨by norm_num, calculate_maintenance_tiers 15 (by norm_num)⟩

/-- C3: TBW equals the gender base fraction (0.6 Male, 0.5 otherwise)
times weight, times 0.85 when obese, times 1.10 when malnourished, in
that order; the result is nonnegative, and at the example input
TBW(110, Male, not obese, not malnourished) = 66. -/
theorem estimate_tbw_spec (w : ℚ) (g : Gender) (ob mal : Bool) (h : 0 < w) :
    estimate_tbw w g ob mal =
      ((if g = Gender.Male then (6:ℚ)/10 else 5/10) * w) *
        (if ob then (85:ℚ)/100 else 1) * (if mal then (110:ℚ)/100 else 1) ∧
    0 ≤ estimate_tbw w g ob mal ∧
    estimate_tbw 110 Gender.Male false false = 66 := by
  refine ⟨?_, estimate_tbw_nonneg w g ob mal h.le, by norm_num [estimate_tbw]⟩
  cases g <;> cases ob <;> cases mal <;> simp [estimate_tbw] <;> ring

/-- C3 witness at weight 110, Male, obese, malnourished. -/
theorem estimate_tbw_spec_witness :
    (0:ℚ) < 110 ∧
    (estimate_tbw 110 Gender.Male true true =
      ((if Gender.Male = Gender.Male then (6:ℚ)/10 else 5/10) * 110) *
        (if true then (85:ℚ)/100 else 1) * (if true then (110:ℚ)/100 else 1) ∧
     0 ≤ estimate_tbw 110 Gender.Male true true ∧
     estimate_tbw 110 Gender.Male false false = 66) :=
  ⟨by norm_num, estimate_tbw_spec 110 Gender.Male true true (by norm_num)⟩

/-- C4: the plan's hourly rate is the 4-2-1 rate halved exactly when CHF
is set; the 24h maintenance volume is that rate × 24, the deficit is that
rate × npoHours with no floor or cap, and the total is maintenance plus
deficit. -/
theorem chf_rate_and_volume_relations (p : PatientInput) :
    (generatePlan p).rate_h =
      (if p.chf then (calculate_maintenance p.weight).1 / 2
       else (calculate_maintenance p.weight).1) ∧
    (generatePlan p).maint_24 = (generatePlan p).rate_h * 24 ∧
    (generatePlan p).deficit = (generatePlan p).rate_h * p.npoHours ∧
    (generatePlan p).total_24 = (generatePlan p).maint_24 + (generatePlan p).deficit := by
  refine ⟨?_, ?_, generatePlan_deficit p, generatePlan_total_24 p⟩
  · rw [generatePlan_rate_h]
    split_ifs <;> ring
  · rw [generatePlan_maint_24, generatePlan_rate_h]
    split_ifs with hc
    · rfl
    · exact calculate_maintenance_snd p.weight

/-- C5: the plan's electrolyte deficits follow the three floored
formulas over TBW and the patient weight, each is nonnegative, and the
sodium deficit vanishes whenever serum sodium exceeds 140. -/
theorem electrolyte_deficit_spec (p : PatientInput) (h : 0 < p.weight) :
    (generatePlan p).na_def = max 0 ((generatePlan p).tbw * (140 - p.serumNa)) ∧
    (generatePlan p).k_def = max 0 (4/10 * p.weight * (4 - p.serumK)) ∧
    (generatePlan p).hco3_def = max 0 (3/10 * p.weight * (24 - p.serumHco3)) ∧
    0 ≤ (generatePlan p).na_def ∧ 0 ≤ (generatePlan p).k_def ∧
    0 ≤ (generatePlan p).hco3_def ∧
    (140 < p.serumNa → (generatePlan p).na_def = 0) := by
  refine ⟨generatePlan_na_def p, generatePlan_k_def p, generatePlan_hco3_def p,
    ?_, ?_, ?_, ?_⟩
  · rw [generatePlan_na_def]
    exact le_max_left _ _
  · rw [generatePlan_k_def]
    exact le_max_left _ _
  · rw [generatePlan_hco3_def]
    exact le_max_left _ _
  · intro hna
    have htbw : 0 ≤ (generatePlan p).tbw := by
      rw [generatePlan_tbw]
      exact estimate_tbw_nonneg p.weight p.gender p.obese p.malnourished h.le
    have hle : (generatePlan p).tbw * (140 - p.serumNa) ≤ 0 := by nlinarith
    rw [generatePlan_na_def]
    exact max_eq_left hle

/-- An input with weight 110 and a high serum sodium of 150. -/
def hiNaInput : PatientInput :=
  { age := 40, gender := Gender.Female, weight := 110, obese := false,
    malnourished := false, npoHours := 6, serumNa := 150, serumK := 4,
    serumHco3 := 24, bloodGlucose := 100, chf := false, pediatric := false,
    insulinInfusion := false, longNpo := false }

/-- C5 witness at the input with weight 110, Na 150: the sodium deficit
floors to 0. -/
theorem electrolyte_deficit_spec_witness :
    (0:ℚ) < hiNaInput.weight ∧
    ((generatePlan hiNaInput).na_def =
        max 0 ((generatePlan hiNaInput).tbw * (140 - hiNaInput.serumNa)) ∧
     (generatePlan hiNaInput).k_def =
        max 0 (4/10 * hiNaInput.weight * (4 - hiNaInput.serumK)) ∧
     (generatePlan hiNaInput).hco3_def =
        max 0 (3/10 * hiNaInput.weight * (24 - hiNaInput.serumHco3)) ∧
     0 ≤ (generatePlan hiNaInput).na_def ∧ 0 ≤ (generatePlan hiNaInput).k_def ∧
     0 ≤ (generatePlan hiNaInput).hco3_def ∧
     (140 < hiNaInput.serumNa → (generatePlan hiNaInput).na_def = 0)) :=
  ⟨by norm_num [hiNaInput], electrolyte_deficit_spec hiNaInput (by norm_num [hiNaInput])⟩

/-! Substring facts for the four fluid names, mirroring the Python
`in` tests of the selection branch. -/

theorem strContains_saline_D5 : strContains "0.9% NaCl" "D5" = false := by decide

theorem strContains_saline_LR : strContains "0.9% NaCl" "LR" = false := by decide

theorem strContains_lr_D5 : strContains "Lactated Ringer\x27s" "D5" = false := by decide

theorem strContains_lr_LR : strContains "Lactated Ringer\x27s" "LR" = false := by decide

theorem strContains_d5ns_D5 : strContains "D5NS" "D5" = true := by decide

theorem strContains_d5lr_D5 : strContains "D5LR" "D5" = true := by decide

/-- C6: with the pediatric flag set the fluid is "D5LR" when longNpo
holds and "D5NS" otherwise, whatever the labs, deficit or other flags,
and in both cases it contains dextrose ("D5"). -/
theorem pediatric_fluid_rule (p : PatientInput) (h : p.pediatric = true) :
    (generatePlan p).fluid = (if p.longNpo then "D5LR" else "D5NS") ∧
    strContains (generatePlan p).fluid "D5" = true := by
  have hf : (generatePlan p).fluid = (if p.longNpo then "D5LR" else "D5NS") := by
    rw [generatePlan_fluid, h]
    simp
  refine ⟨hf, ?_⟩
  rw [hf]
  cases p.longNpo
  · simpa using strContains_d5ns_D5
  · simpa using strContains_d5lr_D5

/-- A pediatric input with every escalation flag off and normal labs. -/
def pediInput : PatientInput :=
  { age := 5, gender := Gender.Female, weight := 18, obese := false,
    malnourished := false, npoHours := 4, serumNa := 140, serumK := 4,
    serumHco3 := 24, bloodGlucose := 90, chf := false, pediatric := true,
    insulinInfusion := false, longNpo := false }

/-- C6 witness on a pediatric input without longNpo. -/
theorem pediatric_fluid_rule_witness :
    pediInput.pediatric = true ∧
    ((generatePlan pediInput).fluid = (if pediInput.longNpo then "D5LR" else "D5NS") ∧
     strContains (generatePlan pediInput).fluid "D5" = true) :=
  ⟨rfl, pediatric_fluid_rule pediInput rfl⟩

/-- The adult input of the spec's escalation example: serum Na 135,
npoHours 0 (hence deficit 0), insulin infusion on. -/
def adultLRInsulinInput : PatientInput :=
  { age := 30, gender := Gender.Female, weight := 70, obese := false,
    malnourished := false, npoHours := 0, serumNa := 135, serumK := 4,
    serumHco3 := 24, bloodGlucose := 100, chf := false, pediatric := false,
    insulinInfusion := true, longNpo := false }

/-- C7: on the adult escalation example (Na 135, deficit 0, insulin
infusion) the code yields "D5NS", not the "D5LR" of the claim: the
substring test of the source, `"LR" in "Lactated Ringer's"`, is false
because the fluid name has no contiguous "LR", so the Lactated Ringer
base is never upgraded to "D5LR". -/
theorem adult_escalation_gives_D5NS :
    (generatePlan adultLRInsulinInput).fluid = "D5NS" ∧
    strContains "Lactated Ringer\x27s" "LR" = false := by
  refine ⟨?_, strContains_lr_LR⟩
  rw [generatePlan_fluid]
  have hd : (generatePlan adultLRInsulinInput).deficit = 0 := by
    rw [generatePlan_deficit]
    simp [adultLRInsulinInput]
  rw [hd]
  norm_num [adultLRInsulinInput, strContains_lr_D5, strContains_lr_LR]

/-- C8: potassium supplementation is recommended exactly when serum
potassium is strictly below 3.5, and the decision depends on nothing
else: two inputs agreeing on serumK get the same recommendation. -/
theorem potassium_rule (p q : PatientInput) (h : p.serumK = q.serumK) :
    ((generatePlan p).k_supplement = "Add KCl 20 mEq per L" ↔ p.serumK < 7/2) ∧
    (¬ p.serumK < 7/2 → (generatePlan p).k_supplement = "No extra KCl") ∧
    (generatePlan p).k_supplement = (generatePlan q).k_supplement := by
  rw [generatePlan_k_supplement, generatePlan_k_supplement, ← h]
  by_cases hk : p.serumK < 7/2
  · simp [hk]
  · simp [hk]

/-- A pediatric input with serum potassium exactly 3.5. -/
def kBoundaryInputA : PatientInput :=
  { age := 10, gender := Gender.Male, weight := 30, obese := false,
    malnourished := false, npoHours := 2, serumNa := 138, serumK := 7/2,
    serumHco3 := 23, bloodGlucose := 95, chf := false, pediatric := true,
    insulinInfusion := false, longNpo := true }

/-- An adult input with serum potassium exactly 3.5 and different
everything else. -/
def kBoundaryInputB : PatientInput :=
  { age := 60, gender := Gender.Female, weight := 80, obese := true,
    malnourished := true, npoHours := 30, serumNa := 120, serumK := 7/2,
    serumHco3 := 18, bloodGlucose := 200, chf := true, pediatric := false,
    insulinInfusion := true, longNpo := false }

/-- C8 witness at the 3.5 boundary, across the pediatric/adult split. -/
theorem potassium_rule_witness :
    kBoundaryInputA.serumK = kBoundaryInputB.serumK ∧
    (((generatePlan kBoundaryInputA).k_supplement = "Add KCl 20 mEq per L" ↔
        kBoundaryInputA.serumK < 7/2) ∧
     (¬ kBoundaryInputA.serumK < 7/2 →
        (generatePlan kBoundaryInputA).k_supplement = "No extra KCl") ∧
     (generatePlan kBoundaryInputA).k_supplement =
        (generatePlan kBoundaryInputB).k_supplement) :=
  ⟨rfl, potassium_rule kBoundaryInputA kBoundaryInputB rfl⟩

/-- An input with weight 0 and otherwise ordinary values. -/
def zeroWeightInput : PatientInput :=
  { age := 25, gender := Gender.Male, weight := 0, obese := false,
    malnourished := false, npoHours := 12, serumNa := 130, serumK := 5,
    serumHco3 := 22, bloodGlucose := 100, chf := false, pediatric := false,
    insulinInfusion := false, longNpo := false }

/-- C9 counterexample: at weight 0 the calculation block raises no error
and returns a complete plan (all-zero volumes, Lactated Ringer, no KCl),
so no InvalidInput rejection happens before the calculation. -/
theorem generatePlan_zero_weight :
    generatePlan zeroWeightInput =
      { tbw := 0, rate_h := 0, maint_24 := 0, deficit := 0, total_24 := 0,
        na_def := 0, k_def := 0, hco3_def := 0,
        fluid := "Lactated Ringer\x27s", k_supplement := "No extra KCl" } := by
  norm_num [generatePlan, zeroWeightInput, estimate_tbw, calculate_maintenance,
    calculate_deficit, calculate_electrolyte_deficits, FluidPlan.mk.injEq,
    min_def, max_def]

/-- C9 amended: the calculation block validates nothing and is total —
every input, weight 0 included, yields a fully-populated plan whose
fluid is one of the four composition-table names, whose supplementation
is one of the two recommendation strings, and whose total is maintenance
plus deficit. -/
theorem generatePlan_always_returns_full_plan (p : PatientInput) :
    ((generatePlan p).fluid = "Lactated Ringer\x27s" ∨
     (generatePlan p).fluid = "0.9% NaCl" ∨
     (generatePlan p).fluid = "D5NS" ∨ (generatePlan p).fluid = "D5LR") ∧
    ((generatePlan p).k_supplement = "Add KCl 20 mEq per L" ∨
     (generatePlan p).k_supplement = "No extra KCl") ∧
    (generatePlan p).total_24 = (generatePlan p).maint_24 + (generatePlan p).deficit := by
  refine ⟨?_, ?_, generatePlan_total_24 p⟩
  · rw [generatePlan_fluid]
    cases hl : p.longNpo <;> cases hi : p.insulinInfusion <;>
      cases hm : p.malnourished <;> split_ifs <;>
        simp [strContains_saline_D5, strContains_saline_LR, strContains_lr_D5,
          strContains_lr_LR]
  · rw [generatePlan_k_supplement]
    split_ifs <;> simp

/-- C10: a non-pediatric input with positive weight and positive NPO
hours has a strictly positive maintenance rate, hence a strictly
positive deficit, which forces the saline branch: the fluid is
"0.9% NaCl" or, after escalation, "D5NS" — never an LR-based name. -/
theorem adult_npo_forces_saline (p : PatientInput) (h1 : p.pediatric = false)
    (h2 : 0 < p.weight) (h3 : 0 < p.npoHours) :
    0 < (generatePlan p).rate_h ∧ 0 < (generatePlan p).deficit ∧
    ((generatePlan p).fluid = "0.9% NaCl" ∨ (generatePlan p).fluid = "D5NS") ∧
    (generatePlan p).fluid ≠ "Lactated Ringer\x27s" ∧
    (generatePlan p).fluid ≠ "D5LR" := by
  have hr0 : 0 < (calculate_maintenance p.weight).1 :=
    calculate_maintenance_pos p.weight h2
  have hrate : 0 < (generatePlan p).rate_h := by
    rw [generatePlan_rate_h]
    split_ifs <;> linarith
  have hdef : 0 < (generatePlan p).deficit := by
    rw [generatePlan_deficit]
    exact mul_pos hrate h3
  have hfl : (generatePlan p).fluid = "0.9% NaCl" ∨ (generatePlan p).fluid = "D5NS" := by
    rw [generatePlan_fluid, h1]
    cases hl : p.longNpo <;> cases hi : p.insulinInfusion <;>
      cases hm : p.malnourished <;>
        simp [if_pos (Or.inr hdef), strContains_saline_D5, strContains_saline_LR]
  refine ⟨hrate, hdef, hfl, ?_, ?_⟩
  · rcases hfl with hf | hf <;> rw [hf] <;> decide
  · rcases hfl with hf | hf <;> rw [hf] <;> decide

/-- C10 witness on the end-to-end example input (adult, weight 110,
npoHours 12). -/
theorem adult_npo_forces_saline_witness :
    exampleInputC1.pediatric = false ∧ 0 < exampleInputC1.weight ∧
    0 < exampleInputC1.npoHours ∧
    (0 < (generatePlan exampleInputC1).rate_h ∧
     0 < (generatePlan exampleInputC1).deficit ∧
     ((generatePlan exampleInputC1).fluid = "0.9% NaCl" ∨
      (generatePlan exampleInputC1).fluid = "D5NS") ∧
     (generatePlan exampleInputC1).fluid ≠ "Lactated Ringer\x27s" ∧
     (generatePlan exampleInputC1).fluid ≠ "D5LR") :=
  ⟨rfl, by norm_num [exampleInputC1], by norm_num [exampleInputC1],
    adult_npo_forces_saline exampleInputC1 rfl (by norm_num [exampleInputC1])
      (by norm_num [exampleInputC1])⟩
